import Mathlib

/-!
Verification of the Solace client SDK core: the AES-GCM encryption envelope
(src/task-B/src/crypto.js, which contains a basic implementation and an
enhanced "VERSION 3.0" implementation) and the remote blob protocol
(src/task-B/src/http.js). Byte arrays are `List Nat` with values < 256,
strings are `List Char`. Effectful platform primitives (WebCrypto, fetch,
Date.now, the CSPRNG) are made explicit: the AES-GCM cipher is a parameter
of type `AEAD`, random draws and timestamps are arguments, and every
function returns its result together with the list of primitive operations
it performed.
-/

deriving instance DecidableEq for Except

namespace Solace

/-- String literal to character list (JS strings are modelled as `List Char`). -/
def chars (s : String) : List Char := s.data

/-- Does the list start with the given pattern?  Models `String.startsWith`. -/
def startsWithSeq : List Char → List Char → Bool
  | [], _ => true
  | _ :: _, [] => false
  | p :: ps, c :: cs => p = c && startsWithSeq ps cs

/-- Does `pat` occur as a contiguous subsequence of `s`?  Models
`String.includes` from JS. -/
def containsSeq (pat : List Char) : List Char → Bool
  | [] => pat.isEmpty
  | c :: cs => startsWithSeq pat (c :: cs) || containsSeq pat cs

/-- Fuelled decimal digit extraction (fuel keeps the recursion
structural; `n + 1` units always suffice). -/
def natDigitsAux : Nat → Nat → List Nat
  | 0, _ => []
  | fuel + 1, n => if n < 10 then [n] else natDigitsAux fuel (n / 10) ++ [n % 10]

/-- Decimal digits of a natural number, most significant first. -/
def natDigits (n : Nat) : List Nat := natDigitsAux (n + 1) n

/-- Decimal rendering of a natural number, as produced by JS template
interpolation of a number. -/
def natToString (n : Nat) : List Char :=
  (natDigits n).map (fun d => Char.ofNat (48 + d))

/-! ### Base64 (models the platform `btoa` / `atob` used by `toBase64` /
`fromBase64` in crypto.js) -/

/-- The base64 alphabet. -/
def b64Alphabet : List Char :=
  chars "ABCDEFGHIJKLMNOPQRSTUVWXYZabcdefghijklmnopqrstuvwxyz0123456789+/"

/-- Character for a 6-bit value. -/
def b64Char (n : Nat) : Char := b64Alphabet.getD n '='

/-- Index of a character in a list, starting from `i`. -/
def b64IndexAux : List Char → Char → Nat → Option Nat
  | [], _, _ => none
  | a :: as, c, i => if a = c then some i else b64IndexAux as c (i + 1)

/-- 6-bit value of a base64 character, `none` for characters outside the
alphabet (including the padding character). -/
def b64Index (c : Char) : Option Nat := b64IndexAux b64Alphabet c 0

/-- Base64 encoding of a byte list: `toBase64` in crypto.js builds a binary
string from the bytes and calls `btoa`; this is that composition. -/
def b64EncodeBytes : List Nat → List Char
  | [] => []
  | [b1] => [b64Char (b1 / 4), b64Char (b1 % 4 * 16), '=', '=']
  | [b1, b2] => [b64Char (b1 / 4), b64Char (b1 % 4 * 16 + b2 / 16), b64Char (b2 % 16 * 4), '=']
  | b1 :: b2 :: b3 :: rest =>
    b64Char (b1 / 4) :: b64Char (b1 % 4 * 16 + b2 / 16) ::
      b64Char (b2 % 16 * 4 + b3 / 64) :: b64Char (b3 % 64) :: b64EncodeBytes rest

/-- ASCII whitespace, which the platform `atob` removes before decoding
(WHATWG forgiving-base64 step 1). -/
def isB64Space (c : Char) : Bool :=
  c = ' ' || c = '\t' || c = '\n' || c = '\x0c' || c = '\r'

/-- Group decoding of whitespace-free base64 per WHATWG forgiving-base64:
full 4-character groups give 3 bytes; a final group may be `xx==`/`xxx=`
(padding, only when it completes a 4-character group) or an unpadded 2- or
3-character remainder, giving 1 or 2 bytes with leftover bits discarded; a
remainder of 1 character, a padding character anywhere else, or any
character outside the alphabet is a failure. -/
def b64DecodeGroups : List Char → Option (List Nat)
  | [] => some []
  | [c1, c2] =>
    match b64Index c1, b64Index c2 with
    | some s1, some s2 => some [s1 * 4 + s2 / 16]
    | _, _ => none
  | [c1, c2, c3] =>
    match b64Index c1, b64Index c2, b64Index c3 with
    | some s1, some s2, some s3 => some [s1 * 4 + s2 / 16, s2 % 16 * 16 + s3 / 4]
    | _, _, _ => none
  | c1 :: c2 :: c3 :: c4 :: rest =>
    match b64Index c1, b64Index c2 with
    | some s1, some s2 =>
      if c3 = '=' then
        if c4 = '=' ∧ rest = [] then some [s1 * 4 + s2 / 16] else none
      else
        match b64Index c3 with
        | some s3 =>
          if c4 = '=' then
            if rest = [] then some [s1 * 4 + s2 / 16, s2 % 16 * 16 + s3 / 4] else none
          else
            match b64Index c4 with
            | some s4 =>
              match b64DecodeGroups rest with
              | some bs =>
                some ((s1 * 4 + s2 / 16) :: (s2 % 16 * 16 + s3 / 4) :: (s3 % 4 * 64 + s4) :: bs)
              | none => none
            | none => none
        | none => none
    | _, _ => none
  | _ => none

/-- Base64 decoding to bytes: `fromBase64` in the basic crypto.js calls
`atob` and reads the code units back as bytes.  This is forgiving base64:
ASCII whitespace is stripped, the final group may be unpadded.  `none`
models the InvalidCharacterError `atob` raises on malformed input. -/
def b64DecodeChars (l : List Char) : Option (List Nat) :=
  b64DecodeGroups (l.filter (fun c => !isB64Space c))

theorem b64Index_b64Char : ∀ n : Nat, n < 64 → b64Index (b64Char n) = some n := by decide

theorem b64Char_ne_pad : ∀ n : Nat, n < 64 → ¬(b64Char n = '=') := by decide

/-- The encoder only emits alphabet characters and padding, never
whitespace. -/
theorem b64Char_not_space (n : Nat) : isB64Space (b64Char n) = false := by
  by_cases h : n < 64
  · exact (by decide : ∀ m, m < 64 → isB64Space (b64Char m) = false) n h
  · have hc : b64Char n = '=' := by
      unfold b64Char
      apply List.getD_eq_default
      have hlen : b64Alphabet.length = 64 := by decide
      omega
    rw [hc]
    decide

/-- No character of an encoded byte list is whitespace. -/
theorem mem_b64EncodeBytes_not_space :
    ∀ (bs : List Nat), ∀ c ∈ b64EncodeBytes bs, (!isB64Space c) = true := by
  intro bs
  induction bs using b64EncodeBytes.induct with
  | case1 =>
    intro c hc
    simp [b64EncodeBytes] at hc
  | case2 b1 =>
    intro c hc
    simp [b64EncodeBytes] at hc
    rcases hc with rfl | rfl | rfl
    · simp [b64Char_not_space]
    · simp [b64Char_not_space]
    · decide
  | case3 b1 b2 =>
    intro c hc
    simp [b64EncodeBytes] at hc
    rcases hc with rfl | rfl | rfl | rfl
    · simp [b64Char_not_space]
    · simp [b64Char_not_space]
    · simp [b64Char_not_space]
    · decide
  | case4 b1 b2 b3 rest ih =>
    intro c hc
    simp [b64EncodeBytes] at hc
    rcases hc with rfl | rfl | rfl | rfl | hmem
    · simp [b64Char_not_space]
    · simp [b64Char_not_space]
    · simp [b64Char_not_space]
    · simp [b64Char_not_space]
    · exact ih c hmem

/-- Group decoding inverts encoding on genuine byte lists. -/
theorem b64_decode_groups_encode : ∀ (bs : List Nat), (∀ b ∈ bs, b < 256) →
    b64DecodeGroups (b64EncodeBytes bs) = some bs := by
  intro bs
  induction bs using b64EncodeBytes.induct with
  | case1 =>
    intro _
    simp [b64EncodeBytes, b64DecodeGroups]
  | case2 b1 =>
    intro h
    have hb1 : b1 < 256 := h b1 (by simp)
    have h1 := b64Index_b64Char (b1 / 4) (by omega)
    have h2 := b64Index_b64Char (b1 % 4 * 16) (by omega)
    simp [b64EncodeBytes, b64DecodeGroups, h1, h2]
    omega
  | case3 b1 b2 =>
    intro h
    have hb1 : b1 < 256 := h b1 (by simp)
    have hb2 : b2 < 256 := h b2 (by simp)
    have h1 := b64Index_b64Char (b1 / 4) (by omega)
    have h2 := b64Index_b64Char (b1 % 4 * 16 + b2 / 16) (by omega)
    have h3 := b64Index_b64Char (b2 % 16 * 4) (by omega)
    have hne3 := b64Char_ne_pad (b2 % 16 * 4) (by omega)
    simp [b64EncodeBytes, b64DecodeGroups, h1, h2, h3, hne3]
    omega
  | case4 b1 b2 b3 rest ih =>
    intro h
    have hb1 : b1 < 256 := h b1 (by simp)
    have hb2 : b2 < 256 := h b2 (by simp)
    have hb3 : b3 < 256 := h b3 (by simp)
    have hrest : ∀ b ∈ rest, b < 256 := fun b hb => h b (by simp [hb])
    have h1 := b64Index_b64Char (b1 / 4) (by omega)
    have h2 := b64Index_b64Char (b1 % 4 * 16 + b2 / 16) (by omega)
    have h3 := b64Index_b64Char (b2 % 16 * 4 + b3 / 64) (by omega)
    have h4 := b64Index_b64Char (b3 % 64) (by omega)
    have hne3 := b64Char_ne_pad (b2 % 16 * 4 + b3 / 64) (by omega)
    have hne4 := b64Char_ne_pad (b3 % 64) (by omega)
    simp [b64EncodeBytes, b64DecodeGroups, h1, h2, h3, h4, hne3, hne4, ih hrest]
    omega

/-- Decoding inverts encoding on genuine byte lists. -/
theorem b64_decode_encode : ∀ (bs : List Nat), (∀ b ∈ bs, b < 256) →
    b64DecodeChars (b64EncodeBytes bs) = some bs := by
  intro bs h
  unfold b64DecodeChars
  rw [List.filter_eq_self.mpr (mem_b64EncodeBytes_not_space bs)]
  exact b64_decode_groups_encode bs h

/-- Encoding is injective on genuine byte lists. -/
theorem b64Encode_inj {xs ys : List Nat} (hx : ∀ b ∈ xs, b < 256) (hy : ∀ b ∈ ys, b < 256)
    (h : b64EncodeBytes xs = b64EncodeBytes ys) : xs = ys := by
  have h1 := b64_decode_encode xs hx
  rw [h, b64_decode_encode ys hy] at h1
  exact (Option.some.inj h1).symm

/-! ### UTF-8 (models the platform `TextEncoder` / `TextDecoder` used by
crypto.js: encode is standard UTF-8; decode replaces malformed sequences
with U+FFFD as the WHATWG decoder does) -/

/-- U+FFFD, the replacement character emitted for malformed input. -/
def replChar : Char := Char.ofNat 0xFFFD

/-- UTF-8 bytes of one scalar value. -/
def utf8EncodeChar (c : Nat) : List Nat :=
  if c < 0x80 then [c]
  else if c < 0x800 then [0xC0 + c / 64, 0x80 + c % 64]
  else if c < 0x10000 then [0xE0 + c / 4096, 0x80 + c / 64 % 64, 0x80 + c % 64]
  else [0xF0 + c / 262144, 0x80 + c / 4096 % 64, 0x80 + c / 64 % 64, 0x80 + c % 64]

/-- `new TextEncoder().encode(s)`: UTF-8 bytes of a string. -/
def utf8Encode (s : List Char) : List Nat :=
  (s.map (fun c => utf8EncodeChar c.toNat)).flatten

/-- Is `b` a UTF-8 continuation byte? -/
def isCont (b : Nat) : Bool := 0x80 ≤ b && b ≤ 0xBF

/-- Valid range of the first continuation byte after a 3-byte leader
(excludes overlong forms and surrogates). -/
def cont3OK (b1 b2 : Nat) : Bool :=
  if b1 = 0xE0 then 0xA0 ≤ b2 && b2 ≤ 0xBF
  else if b1 = 0xED then 0x80 ≤ b2 && b2 ≤ 0x9F
  else isCont b2

/-- Valid range of the first continuation byte after a 4-byte leader. -/
def cont4OK (b1 b2 : Nat) : Bool :=
  if b1 = 0xF0 then 0x90 ≤ b2 && b2 ≤ 0xBF
  else if b1 = 0xF4 then 0x80 ≤ b2 && b2 ≤ 0x8F
  else isCont b2

/-- Fuelled body of the UTF-8 decoder. -/
def utf8DecodeAux : Nat → List Nat → List Char
  | 0, _ => []
  | _, [] => []
  | fuel + 1, b :: rest =>
    if b < 0x80 then Char.ofNat b :: utf8DecodeAux fuel rest
    else if 0xC2 ≤ b && b ≤ 0xDF then
      match rest with
      | b2 :: rest2 =>
        if isCont b2 then Char.ofNat ((b - 0xC0) * 64 + (b2 - 0x80)) :: utf8DecodeAux fuel rest2
        else replChar :: utf8DecodeAux fuel rest
      | [] => [replChar]
    else if 0xE0 ≤ b && b ≤ 0xEF then
      match rest with
      | b2 :: b3 :: rest3 =>
        if cont3OK b b2 && isCont b3 then
          Char.ofNat ((b - 0xE0) * 4096 + (b2 - 0x80) * 64 + (b3 - 0x80)) ::
            utf8DecodeAux fuel rest3
        else replChar :: utf8DecodeAux fuel rest
      | _ => [replChar]
    else if 0xF0 ≤ b && b ≤ 0xF4 then
      match rest with
      | b2 :: b3 :: b4 :: rest4 =>
        if cont4OK b b2 && isCont b3 && isCont b4 then
          Char.ofNat ((b - 0xF0) * 262144 + (b2 - 0x80) * 4096 + (b3 - 0x80) * 64 + (b4 - 0x80)) ::
            utf8DecodeAux fuel rest4
        else replChar :: utf8DecodeAux fuel rest
      | _ => [replChar]
    else replChar :: utf8DecodeAux fuel rest

/-- `new TextDecoder().decode(bytes)`: UTF-8 decoding with U+FFFD
replacement of malformed sequences. -/
def utf8Decode (l : List Nat) : List Char := utf8DecodeAux l.length l

/-! ### The AES-GCM primitive

crypto.js calls `subtle.encrypt` / `subtle.decrypt` with `AES-GCM`; the raw
cipher output is the ciphertext with the 16-byte authentication tag
appended, and decryption verifies the tag, rejecting (the JS promise
rejects with `OperationError`) on any mismatch.  The primitive is a
platform black box, so the SDK functions are parametrised over it. -/

/-- An AEAD primitive: `enc key iv pt` returns ciphertext with the 16-byte
tag appended; `dec key iv ct` returns the plaintext, or `none` when tag
verification fails. -/
structure AEAD where
  enc : List Nat → List Nat → List Nat → List Nat
  dec : List Nat → List Nat → List Nat → Option (List Nat)

/-- Keystream byte of the executable AES-GCM stand-in. -/
def gcmKs (key iv : List Nat) (i : Nat) : Nat :=
  (key.sum * 31 + iv.sum * 7 + i * 13 + 11) % 256

/-- Authentication tag of the executable AES-GCM stand-in: 16 bytes
determined by key, iv and ciphertext, so any alteration of those inputs is
detected, as GCM's tag check does. -/
def gcmTag (key iv ct : List Nat) : List Nat :=
  List.replicate 16 ((key.sum + iv.sum * 2 + ct.sum * 3 + ct.length * 5) % 256)

/-- Encryption of the stand-in: per-byte keystream XOR, tag appended. -/
def gcmEnc (key iv pt : List Nat) : List Nat :=
  let ct := pt.enum.map (fun p => Nat.xor p.2 (gcmKs key iv p.1))
  ct ++ gcmTag key iv ct

/-- Decryption of the stand-in: split off the 16-byte tag, verify it,
undo the keystream XOR. -/
def gcmDec (key iv c : List Nat) : Option (List Nat) :=
  if c.length < 16 then none
  else
    let ct := c.take (c.length - 16)
    let tg := c.drop (c.length - 16)
    if tg = gcmTag key iv ct then
      some (ct.enum.map (fun p => Nat.xor p.2 (gcmKs key iv p.1)))
    else none

/-- Executable AEAD instance used to run the model on concrete inputs. -/
def gcmModel : AEAD := ⟨gcmEnc, gcmDec⟩

/-! ### Data model shared by both crypto.js implementations -/

/-- HTTP method (only POST is used by http.js). -/
inductive HttpMethod where
  | post
deriving DecidableEq

/-- A fetch request as issued by http.js: url, method, Content-Type
header, serialized body. -/
structure FetchReq where
  url : List Char
  method : HttpMethod
  contentType : List Char
  body : List Char
deriving DecidableEq

/-- Primitive operations a call can perform; each function returns the
list of operations it executed, in order. -/
inductive PrimOp where
  | importKey
  | getRandom (n : Nat)
  | encryptOp
  | decryptOp
  | fetchOp (req : FetchReq)
deriving DecidableEq

/-- Errors thrown by the modelled functions. `jsError` is a plain JS
`Error` (and platform exceptions such as `atob`'s InvalidCharacterError),
`operationError` is the WebCrypto `OperationError` a rejected AES-GCM
decryption produces, and `cryptoError c` is the enhanced implementation's
`CryptoError` with code `c` (messages elided). -/
inductive Err where
  | jsError (msg : List Char)
  | operationError
  | cryptoError (code : List Char)
deriving DecidableEq

/-- Key material accepted by `getKey`: an already-imported CryptoKey
handle (identified by its raw bytes), a base64 string, or raw bytes
(ArrayBuffer / typed-array views collapse to their byte contents). -/
inductive KeyMaterial where
  | handle (raw : List Nat)
  | b64 (s : List Char)
  | bytes (b : List Nat)
deriving DecidableEq

/-- A JS value passed as the `data` argument of `encryptBlob`. -/
inductive JSData where
  | str (s : List Char)
  | bin (b : List Nat)
  | nullv
  | undef
  | num (n : Nat)
deriving DecidableEq

/-- The envelope produced by the basic `encryptBlob`: three base64
strings. -/
structure Envelope where
  iv : List Char
  ciphertext : List Char
  tag : List Char
deriving DecidableEq

/-! ### Basic implementation (first document of crypto.js) -/

/-- Message of the basic `getKey`'s key-length `Error`. -/
def keyLenMsg : List Char := chars "AES-GCM key must be 256 bits (32 bytes)"

/-- Basic `getKey`: CryptoKey passes through; a string is base64-decoded;
buffers are read as bytes; a decoded length other than 32 throws before
`subtle.importKey` is called. -/
def getKey : KeyMaterial → Except Err (List Nat) × List PrimOp
  | .handle raw => (.ok raw, [])
  | .b64 s =>
    match b64DecodeChars s with
    | none => (.error (.jsError (chars "InvalidCharacterError")), [])
    | some raw =>
      if raw.length ≠ 32 then (.error (.jsError keyLenMsg), []) else (.ok raw, [.importKey])
  | .bytes b =>
    if b.length ≠ 32 then (.error (.jsError keyLenMsg), []) else (.ok b, [.importKey])

/-- `new Uint8Array(data)` on a non-string `data`, and
`new TextEncoder().encode(data)` on a string: the plaintext bytes the
basic `encryptBlob` actually encrypts.  Note `new Uint8Array(null)` and
`new Uint8Array(undefined)` are empty and `new Uint8Array(n)` is `n` zero
bytes. -/
def jsToBytes : JSData → List Nat
  | .str s => utf8Encode s
  | .bin b => b
  | .nullv => []
  | .undef => []
  | .num n => List.replicate n 0

/-- Basic `encryptBlob`: import the key, draw a fresh 12-byte IV from the
CSPRNG (the draw is the `draw` argument), encrypt, split the tag off the
last 16 bytes, base64 the three fields. -/
def encryptBlob (aead : AEAD) (data : JSData) (km : KeyMaterial) (draw : List Nat) :
    Except Err Envelope × List PrimOp :=
  match getKey km with
  | (.error e, t) => (.error e, t)
  | (.ok key, t) =>
    let iv := draw
    let plainBytes := jsToBytes data
    let cipherBytes := aead.enc key iv plainBytes
    let tagBytes := cipherBytes.drop (cipherBytes.length - 16)
    let ctBytes := cipherBytes.take (cipherBytes.length - 16)
    (.ok ⟨b64EncodeBytes iv, b64EncodeBytes ctBytes, b64EncodeBytes tagBytes⟩,
      t ++ [.getRandom 12, .encryptOp])

/-- Basic `decryptBlob`: import the key, base64-decode the fields (no
length validation), concatenate ciphertext and tag, call the cipher, and
UTF-8-decode the plaintext. -/
def decryptBlob (aead : AEAD) (cipher : Envelope) (km : KeyMaterial) :
    Except Err (List Char) × List PrimOp :=
  match getKey km with
  | (.error e, t) => (.error e, t)
  | (.ok key, t) =>
    match b64DecodeChars cipher.iv with
    | none => (.error (.jsError (chars "InvalidCharacterError")), t)
    | some ivBytes =>
      match b64DecodeChars cipher.ciphertext with
      | none => (.error (.jsError (chars "InvalidCharacterError")), t)
      | some ctBytes =>
        match b64DecodeChars cipher.tag with
        | none => (.error (.jsError (chars "InvalidCharacterError")), t)
        | some tagBytes =>
          match aead.dec key ivBytes (ctBytes ++ tagBytes) with
          | none => (.error .operationError, t ++ [.decryptOp])
          | some plain => (.ok (utf8Decode plain), t ++ [.decryptOp])

/-- `decryptBlob(encryptBlob(d, k), k)`: the round trip of the basic
implementation. -/
def roundTripV1 (aead : AEAD) (d : JSData) (km : KeyMaterial) (draw : List Nat) :
    Except Err (List Char) :=
  match (encryptBlob aead d km draw).1 with
  | .error e => .error e
  | .ok env => (decryptBlob aead env km).1

/-! ### Enhanced implementation (second document of crypto.js, VERSION 3.0)

The module-level key cache only memoizes `subtle.importKey`; it is
modelled as always missing.  The entropy warning and the timing /
console logging have no semantic effect and are omitted, as are the
optional `options.aad` / `options.metadata` arguments (claims never pass
options). -/

/-- 16MB plaintext ceiling of the enhanced implementation. -/
def MAX_PLAINTEXT_SIZE : Nat := 16 * 1024 * 1024

/-- Enhanced `validatePlaintext`: rejects null/undefined with
INVALID_DATA, non-string non-buffer values with INVALID_DATA_TYPE, and
oversized data with DATA_TOO_LARGE; otherwise returns the bytes. -/
def validatePlaintext : JSData → Except Err (List Nat)
  | .nullv => .error (.cryptoError (chars "INVALID_DATA"))
  | .undef => .error (.cryptoError (chars "INVALID_DATA"))
  | .str s =>
    let db := utf8Encode s
    if db.length > MAX_PLAINTEXT_SIZE then .error (.cryptoError (chars "DATA_TOO_LARGE"))
    else .ok db
  | .bin b =>
    if b.length > MAX_PLAINTEXT_SIZE then .error (.cryptoError (chars "DATA_TOO_LARGE"))
    else .ok b
  | .num _ => .error (.cryptoError (chars "INVALID_DATA_TYPE"))

/-- Is `c` in the base64 alphabet? -/
def isB64Alpha (c : Char) : Bool := (b64Index c).isSome

/-- The enhanced `fromBase64`'s format test, the regex
`^[A-Za-z0-9+/]*={0,2}$`: alphabet characters followed by at most two
padding characters (no whitespace allowed). -/
def b64FormatOK (l : List Char) : Bool :=
  let body := l.takeWhile isB64Alpha
  let rest := l.drop body.length
  rest.all (fun c => decide (c = '=')) && decide (rest.length ≤ 2)

/-- The enhanced `fromBase64`: reject strings failing the format regex
with INVALID_BASE64; otherwise call `atob`, whose InvalidCharacterError
(not a CryptoError) is wrapped as DECODING_ERROR by the catch block. -/
def fromBase64V3 (l : List Char) : Except Err (List Nat) :=
  if b64FormatOK l then
    match b64DecodeChars l with
    | some bs => .ok bs
    | none => .error (.cryptoError (chars "DECODING_ERROR"))
  else .error (.cryptoError (chars "INVALID_BASE64"))

/-- The enhanced `fromBase64` only fails with INVALID_BASE64 or
DECODING_ERROR. -/
theorem fromBase64V3_error_code (l : List Char) (e : Err) (h : fromBase64V3 l = .error e) :
    e = .cryptoError (chars "INVALID_BASE64") ∨ e = .cryptoError (chars "DECODING_ERROR") := by
  by_cases hfmt : b64FormatOK l = true
  · rcases hdec : b64DecodeChars l with _ | bs
    · simp [fromBase64V3, hfmt, hdec] at h
      exact Or.inr h.symm
    · simp [fromBase64V3, hfmt, hdec] at h
  · have hfmt' : b64FormatOK l = false := Bool.eq_false_iff.mpr hfmt
    simp [fromBase64V3, hfmt'] at h
    exact Or.inl h.symm

/-- When the enhanced `fromBase64` succeeds, its result is the `atob`
decoding. -/
theorem fromBase64V3_ok (l : List Char) (bs : List Nat) (h : fromBase64V3 l = .ok bs) :
    b64DecodeChars l = some bs := by
  by_cases hfmt : b64FormatOK l = true
  · rcases hdec : b64DecodeChars l with _ | bs2
    · simp [fromBase64V3, hfmt, hdec] at h
    · simp [fromBase64V3, hfmt, hdec] at h
      exact congrArg some h
  · have hfmt' : b64FormatOK l = false := Bool.eq_false_iff.mpr hfmt
    simp [fromBase64V3, hfmt'] at h

/-- Enhanced `validateKeyMaterial`: CryptoKey passes through; the source
first checks `!keyMaterial`, and the empty string is falsy in JS, so an
empty-string key throws MISSING_KEY (the later EMPTY_KEY branch is dead
code for it); a non-empty string goes through the enhanced `fromBase64`;
a decoded or raw length other than 32 is INVALID_KEY_LENGTH. -/
def validateKeyMaterial : KeyMaterial → Except Err (List Nat)
  | .handle raw => .ok raw
  | .b64 s =>
    if s.length = 0 then .error (.cryptoError (chars "MISSING_KEY"))
    else
      match fromBase64V3 s with
      | .error e => .error e
      | .ok kb =>
        if kb.length ≠ 32 then .error (.cryptoError (chars "INVALID_KEY_LENGTH")) else .ok kb
  | .bytes b =>
    if b.length ≠ 32 then .error (.cryptoError (chars "INVALID_KEY_LENGTH")) else .ok b

/-- Enhanced `getKey`: validate the material, then `subtle.importKey`
(cache modelled as always missing). -/
def getKeyV3 : KeyMaterial → Except Err (List Nat) × List PrimOp
  | .handle raw => (.ok raw, [])
  | .b64 s =>
    match validateKeyMaterial (.b64 s) with
    | .error e => (.error e, [])
    | .ok kb => (.ok kb, [.importKey])
  | .bytes b =>
    match validateKeyMaterial (.bytes b) with
    | .error e => (.error e, [])
    | .ok kb => (.ok kb, [.importKey])

/-- The `metadata` object of an enhanced envelope (the fields that affect
behaviour). -/
structure CipherMeta where
  algorithm : Option (List Char)
  dataSize : Option Nat
deriving DecidableEq

/-- Cipher object consumed by the enhanced `decryptBlob`: `none` models a
missing (undefined) field. -/
structure CipherObj where
  iv : Option (List Char)
  ciphertext : Option (List Char)
  tag : Option (List Char)
  metadata : Option CipherMeta
deriving DecidableEq

/-- JS falsiness of an optional string field: undefined or the empty
string. -/
def falsyStr : Option (List Char) → Bool
  | none => true
  | some s => s.isEmpty

/-- Does the metadata algorithm check fail (`algorithm` present and not
containing "AES-GCM")? -/
def metaAlgBad : Option CipherMeta → Bool
  | some m =>
    match m.algorithm with
    | some a => !containsSeq (chars "AES-GCM") a
    | none => false
  | none => false

/-- Enhanced `encryptBlob`: validate the plaintext, import the key, draw
the IV, encrypt, split the tag, and attach metadata. -/
def encryptBlobV3 (aead : AEAD) (data : JSData) (km : KeyMaterial) (draw : List Nat) :
    Except Err CipherObj × List PrimOp :=
  match validatePlaintext data with
  | .error e => (.error e, [])
  | .ok plainBytes =>
    match getKeyV3 km with
    | (.error e, t) => (.error e, t)
    | (.ok key, t) =>
      let iv := draw
      let cipherBytes := aead.enc key iv plainBytes
      let tagBytes := cipherBytes.drop (cipherBytes.length - 16)
      let ctBytes := cipherBytes.take (cipherBytes.length - 16)
      (.ok ⟨some (b64EncodeBytes iv), some (b64EncodeBytes ctBytes),
            some (b64EncodeBytes tagBytes),
            some ⟨some (chars "AES-GCM-256"), some plainBytes.length⟩⟩,
        t ++ [.getRandom 12, .encryptOp])

/-- Enhanced `decryptBlob`: check field presence (INCOMPLETE_CIPHER),
check metadata algorithm, import the key, base64-decode the fields with
the enhanced `fromBase64` (INVALID_BASE64 on format failure,
DECODING_ERROR where atob itself throws), validate the decoded lengths
(INVALID_IV / INVALID_TAG) before calling the cipher, map a cipher
rejection to DECRYPTION_FAILED, and check `metadata.dataSize`
(INTEGRITY_ERROR). -/
def decryptBlobV3 (aead : AEAD) (cipher : CipherObj) (km : KeyMaterial) :
    Except Err (List Char) × List PrimOp :=
  if falsyStr cipher.iv || falsyStr cipher.ciphertext || falsyStr cipher.tag then
    (.error (.cryptoError (chars "INCOMPLETE_CIPHER")), [])
  else if metaAlgBad cipher.metadata then
    (.error (.cryptoError (chars "UNSUPPORTED_ALGORITHM")), [])
  else
    match getKeyV3 km with
    | (.error e, t) => (.error e, t)
    | (.ok key, t) =>
      match fromBase64V3 (cipher.iv.getD []) with
      | .error e => (.error e, t)
      | .ok ivBytes =>
        match fromBase64V3 (cipher.ciphertext.getD []) with
        | .error e => (.error e, t)
        | .ok ctBytes =>
          match fromBase64V3 (cipher.tag.getD []) with
          | .error e => (.error e, t)
          | .ok tagBytes =>
            if ivBytes.length ≠ 12 then (.error (.cryptoError (chars "INVALID_IV")), t)
            else if tagBytes.length ≠ 16 then (.error (.cryptoError (chars "INVALID_TAG")), t)
            else
              match aead.dec key ivBytes (ctBytes ++ tagBytes) with
              | none => (.error (.cryptoError (chars "DECRYPTION_FAILED")), t ++ [.decryptOp])
              | some plain =>
                match cipher.metadata with
                | some m =>
                  match m.dataSize with
                  | some n =>
                    if plain.length ≠ n then
                      (.error (.cryptoError (chars "INTEGRITY_ERROR")), t ++ [.decryptOp])
                    else (.ok (utf8Decode plain), t ++ [.decryptOp])
                  | none => (.ok (utf8Decode plain), t ++ [.decryptOp])
                | none => (.ok (utf8Decode plain), t ++ [.decryptOp])

/-! ### Remote blob protocol (http.js)

`fetch` and `Date.now` are platform effects, passed in as the `ffetch`
and `now` arguments.  A `JSResponse` carries the status, the body as text
(`response.text()`), and the `plaintext` field of the JSON-parsed body
(`none` models a body that fails JSON parsing). -/

/-- A fetch response as observed by http.js. -/
structure JSResponse where
  status : Nat
  text : List Char
  jsonPlaintext : Option (List Char)

/-- `response.ok`: status in the 2xx range. -/
def respOk (r : JSResponse) : Bool := decide (200 ≤ r.status ∧ r.status < 300)

/-- The placeholder marker that switches http.js into mock mode. -/
def mockMarker : List Char := chars "xxxxx"

/-- The hard-coded string `downloadAndDecrypt` returns in mock mode. -/
def mockContent : List Char :=
  chars "Mock decrypted content: This would be the decrypted audio data from the server."

/-- `JSON.stringify(\x7b blobKey \x7d)`, the body of the download POST. -/
def jsonBlobKeyBody (blobKey : List Char) : List Char :=
  chars "\x7b\"blobKey\":\"" ++ blobKey ++ chars "\"\x7d"

/-- `uploadBlob(blob, apiUrl)`: in mock mode (apiUrl contains "xxxxx")
return a fabricated key without any request; otherwise POST the blob as
octet-stream, throw `Upload failed: <status>` on a non-ok response, and
return the raw body text. -/
def uploadBlob (blob apiUrl : List Char) (now : Nat) (ffetch : FetchReq → JSResponse) :
    Except Err (List Char) × List PrimOp :=
  if containsSeq mockMarker apiUrl then
    (.ok (chars "mock-blob-key-" ++ natToString now), [])
  else
    let req : FetchReq := ⟨apiUrl, .post, chars "application/octet-stream", blob⟩
    let resp := ffetch req
    if respOk resp then (.ok resp.text, [.fetchOp req])
    else
      (.error (.jsError (chars "Upload failed: " ++ natToString resp.status)), [.fetchOp req])

/-- `downloadAndDecrypt(blobKey, apiUrl, keyBytes)`: in mock mode return
the hard-coded string without any request; otherwise POST `{blobKey}` as
JSON, throw `Download failed: <status>` on a non-ok response, and return
the `plaintext` field of the JSON response.  The `keyBytes` argument is
never used outside mock-mode logging and no decryption happens
client-side. -/
def downloadAndDecrypt (blobKey apiUrl : List Char) (keyBytes : List Nat)
    (ffetch : FetchReq → JSResponse) : Except Err (List Char) × List PrimOp :=
  if containsSeq mockMarker apiUrl then
    (.ok mockContent, [])
  else
    let req : FetchReq := ⟨apiUrl, .post, chars "application/json", jsonBlobKeyBody blobKey⟩
    let resp := ffetch req
    if respOk resp then
      match resp.jsonPlaintext with
      | some p => (.ok p, [.fetchOp req])
      | none => (.error (.jsError (chars "SyntaxError: response body is not JSON")), [.fetchOp req])
    else
      (.error (.jsError (chars "Download failed: " ++ natToString resp.status)), [.fetchOp req])

/-! ### Claim C1 -/

/-- C1: the round trip `decryptBlob(encryptBlob(d, k), k)` does NOT return
`d` for binary inputs that are not valid UTF-8: the basic `decryptBlob`
always UTF-8-decodes the plaintext, so the single byte 0xFF comes back as
the replacement character U+FFFD (whose UTF-8 bytes are EF BF BD), not as
the original data.  This evaluates the model at that failing input. -/
theorem roundTrip_binary_corrupts :
    roundTripV1 gcmModel (.bin [255]) (.bytes (List.replicate 32 0)) (List.replicate 12 0)
      = .ok [replChar]
    ∧ utf8Encode [replChar] = [239, 191, 189]
    ∧ utf8Encode [replChar] ≠ [255] := by
  refine ⟨by decide, by decide, by decide⟩

/-! ### Claim C5 -/

/-- C5: the basic `encryptBlob` takes its 12-byte IV directly from the
CSPRNG draw of that call — the envelope's `iv` field is the base64 of the
draw, whatever the plaintext is, and the trace records the CSPRNG
request — so two calls whose draws differ produce distinct `iv` fields
and distinct envelopes. -/
theorem encryptBlob_iv_fresh_and_distinct
    (aead : AEAD) (k : List Nat) (hk : k.length = 32)
    (d d' : JSData) (draw draw' : List Nat)
    (hb : ∀ b ∈ draw, b < 256) (hb' : ∀ b ∈ draw', b < 256)
    (hne : draw ≠ draw')
    (env env' : Envelope)
    (he : (encryptBlob aead d (.bytes k) draw).1 = .ok env)
    (he' : (encryptBlob aead d' (.bytes k) draw').1 = .ok env') :
    env.iv = b64EncodeBytes draw ∧ env'.iv = b64EncodeBytes draw'
    ∧ PrimOp.getRandom 12 ∈ (encryptBlob aead d (.bytes k) draw).2
    ∧ env.iv ≠ env'.iv ∧ env ≠ env' := by
  have hgk : getKey (.bytes k) = (.ok k, [.importKey]) := by simp [getKey, hk]
  simp only [encryptBlob, hgk] at he he'
  have hiv : env.iv = b64EncodeBytes draw := by
    cases he
    rfl
  have hiv' : env'.iv = b64EncodeBytes draw' := by
    cases he'
    rfl
  have hivne : env.iv ≠ env'.iv := by
    rw [hiv, hiv']
    intro heq
    exact hne (b64Encode_inj hb hb' heq)
  refine ⟨hiv, hiv', ?_, hivne, fun h => hivne (congrArg Envelope.iv h)⟩
  simp [encryptBlob, hgk]

/-- Witness for C5 at concrete inputs: zero key, two different draws. -/
theorem encryptBlob_iv_fresh_and_distinct_witness :
    (encryptBlob gcmModel (.str (chars "hi")) (.bytes (List.replicate 32 0))
        (List.replicate 12 0)).1
      = .ok ⟨b64EncodeBytes (List.replicate 12 0),
          b64EncodeBytes ((gcmModel.enc (List.replicate 32 0) (List.replicate 12 0)
            (jsToBytes (.str (chars "hi")))).take
            ((gcmModel.enc (List.replicate 32 0) (List.replicate 12 0)
              (jsToBytes (.str (chars "hi")))).length - 16)),
          b64EncodeBytes ((gcmModel.enc (List.replicate 32 0) (List.replicate 12 0)
            (jsToBytes (.str (chars "hi")))).drop
            ((gcmModel.enc (List.replicate 32 0) (List.replicate 12 0)
              (jsToBytes (.str (chars "hi")))).length - 16))⟩
    ∧ (encryptBlob gcmModel (.str (chars "hi")) (.bytes (List.replicate 32 0))
        (List.replicate 12 1)).1
      = .ok ⟨b64EncodeBytes (List.replicate 12 1),
          b64EncodeBytes ((gcmModel.enc (List.replicate 32 0) (List.replicate 12 1)
            (jsToBytes (.str (chars "hi")))).take
            ((gcmModel.enc (List.replicate 32 0) (List.replicate 12 1)
              (jsToBytes (.str (chars "hi")))).length - 16)),
          b64EncodeBytes ((gcmModel.enc (List.replicate 32 0) (List.replicate 12 1)
            (jsToBytes (.str (chars "hi")))).drop
            ((gcmModel.enc (List.replicate 32 0) (List.replicate 12 1)
              (jsToBytes (.str (chars "hi")))).length - 16))⟩
    ∧ (⟨b64EncodeBytes (List.replicate 12 0),
          b64EncodeBytes ((gcmModel.enc (List.replicate 32 0) (List.replicate 12 0)
            (jsToBytes (.str (chars "hi")))).take
            ((gcmModel.enc (List.replicate 32 0) (List.replicate 12 0)
              (jsToBytes (.str (chars "hi")))).length - 16)),
          b64EncodeBytes ((gcmModel.enc (List.replicate 32 0) (List.replicate 12 0)
            (jsToBytes (.str (chars "hi")))).drop
            ((gcmModel.enc (List.replicate 32 0) (List.replicate 12 0)
              (jsToBytes (.str (chars "hi")))).length - 16))⟩ : Envelope)
      ≠ ⟨b64EncodeBytes (List.replicate 12 1),
          b64EncodeBytes ((gcmModel.enc (List.replicate 32 0) (List.replicate 12 1)
            (jsToBytes (.str (chars "hi")))).take
            ((gcmModel.enc (List.replicate 32 0) (List.replicate 12 1)
              (jsToBytes (.str (chars "hi")))).length - 16)),
          b64EncodeBytes ((gcmModel.enc (List.replicate 32 0) (List.replicate 12 1)
            (jsToBytes (.str (chars "hi")))).drop
            ((gcmModel.enc (List.replicate 32 0) (List.replicate 12 1)
              (jsToBytes (.str (chars "hi")))).length - 16))⟩ := by
  refine ⟨by decide, by decide, ?_⟩
  exact (encryptBlob_iv_fresh_and_distinct gcmModel (List.replicate 32 0) (by decide)
    (.str (chars "hi")) (.str (chars "hi")) (List.replicate 12 0) (List.replicate 12 1)
    (by decide) (by decide) (by decide) _ _ (by decide) (by decide)).2.2.2.2

/-! ### Claim C10 -/

/-- C10: when the apiUrl contains "xxxxx", `uploadBlob` performs no HTTP
request and returns the fabricated key `mock-blob-key-<timestamp>`, and
`downloadAndDecrypt` performs no HTTP request, never touches the key, and
returns a fixed hard-coded string. -/
theorem mock_mode_short_circuits
    (blob apiUrl : List Char) (now : Nat) (ffetch : FetchReq → JSResponse)
    (blobKey : List Char) (k k' : List Nat)
    (hmock : containsSeq mockMarker apiUrl = true) :
    uploadBlob blob apiUrl now ffetch = (.ok (chars "mock-blob-key-" ++ natToString now), [])
    ∧ downloadAndDecrypt blobKey apiUrl k ffetch = (.ok mockContent, [])
    ∧ downloadAndDecrypt blobKey apiUrl k ffetch = downloadAndDecrypt blobKey apiUrl k' ffetch := by
  refine ⟨?_, ?_, rfl⟩ <;> simp [uploadBlob, downloadAndDecrypt, hmock]

/-- Fetch stub for the C10 witness. -/
def fetchStub10 : FetchReq → JSResponse := fun _ => ⟨200, [], none⟩

/-- Witness for C10: a placeholder endpoint URL containing "xxxxx". -/
theorem mock_mode_short_circuits_witness :
    uploadBlob (chars "payload")
        (chars "https://xxxxx.execute-api.us-east-1.amazonaws.com/dev/upload")
        1700000000000 fetchStub10
      = (.ok (chars "mock-blob-key-" ++ natToString 1700000000000), [])
    ∧ downloadAndDecrypt (chars "bk")
        (chars "https://xxxxx.execute-api.us-east-1.amazonaws.com/dev/upload")
        (List.replicate 32 0) fetchStub10
      = (.ok mockContent, [])
    ∧ downloadAndDecrypt (chars "bk")
        (chars "https://xxxxx.execute-api.us-east-1.amazonaws.com/dev/upload")
        (List.replicate 32 0) fetchStub10
      = downloadAndDecrypt (chars "bk")
        (chars "https://xxxxx.execute-api.us-east-1.amazonaws.com/dev/upload")
        (List.replicate 32 1) fetchStub10 :=
  mock_mode_short_circuits (chars "payload")
    (chars "https://xxxxx.execute-api.us-east-1.amazonaws.com/dev/upload")
    1700000000000 fetchStub10 (chars "bk") (List.replicate 32 0) (List.replicate 32 1)
    (by decide)

/-! ### Claim C2 -/

/-- `la` is `l` with exactly one byte replaced by a different byte
value. -/
def alteredByte (l la : List Nat) : Prop :=
  ∃ i v, i < l.length ∧ v < 256 ∧ v ≠ l.getD i 0 ∧ la = l.set i v

/-- C2: given an envelope produced by `encryptBlob` under key `k` whose
ciphertext/tag are `ct0`/`tg0` and iv is `draw`, the basic `decryptBlob`
applied to a version with one byte of ciphertext, tag or iv altered — or
to the unaltered envelope under a different 32-byte key — fails closed
with the WebCrypto `OperationError` (the spec's DecryptionFailed) and
returns no plaintext.  The hypothesis `hrej` is AES-GCM's authenticity
guarantee that the cipher rejects the tampered input; the theorem shows
the code turns that rejection into a thrown error rather than any
plaintext. -/
theorem decryptBlob_fails_closed_on_tamper_or_wrong_key
    (aead : AEAD) (k kd : List Nat) (d : JSData) (draw ct0 tg0 ivB ctB tagB : List Nat)
    (hk : k.length = 32) (hkd : kd.length = 32)
    (hct0 : ct0 = (aead.enc k draw (jsToBytes d)).take
      ((aead.enc k draw (jsToBytes d)).length - 16))
    (htg0 : tg0 = (aead.enc k draw (jsToBytes d)).drop
      ((aead.enc k draw (jsToBytes d)).length - 16))
    (hivB : ∀ b ∈ ivB, b < 256) (hctB : ∀ b ∈ ctB, b < 256) (htagB : ∀ b ∈ tagB, b < 256)
    (hcase : (kd = k ∧ ((alteredByte ct0 ctB ∧ ivB = draw ∧ tagB = tg0)
                      ∨ (alteredByte tg0 tagB ∧ ivB = draw ∧ ctB = ct0)
                      ∨ (alteredByte draw ivB ∧ ctB = ct0 ∧ tagB = tg0)))
            ∨ (kd ≠ k ∧ ivB = draw ∧ ctB = ct0 ∧ tagB = tg0))
    (hrej : aead.dec kd ivB (ctB ++ tagB) = none) :
    (decryptBlob aead ⟨b64EncodeBytes ivB, b64EncodeBytes ctB, b64EncodeBytes tagB⟩
      (.bytes kd)).1 = .error Err.operationError := by
  have hgk : getKey (.bytes kd) = (.ok kd, [.importKey]) := by simp [getKey, hkd]
  simp [decryptBlob, hgk, b64_decode_encode ivB hivB, b64_decode_encode ctB hctB,
    b64_decode_encode tagB htagB, hrej]

/-- Witness for C2: the wrong-key case at a concrete envelope (zero key
encrypts the empty payload, the all-ones key is used for decryption; the
executable AEAD stand-in rejects it). -/
theorem decryptBlob_fails_closed_witness :
    (decryptBlob gcmModel
      ⟨b64EncodeBytes (List.replicate 12 2),
       b64EncodeBytes ((gcmModel.enc (List.replicate 32 0) (List.replicate 12 2)
          (jsToBytes (.bin []))).take
          ((gcmModel.enc (List.replicate 32 0) (List.replicate 12 2)
            (jsToBytes (.bin []))).length - 16)),
       b64EncodeBytes ((gcmModel.enc (List.replicate 32 0) (List.replicate 12 2)
          (jsToBytes (.bin []))).drop
          ((gcmModel.enc (List.replicate 32 0) (List.replicate 12 2)
            (jsToBytes (.bin []))).length - 16))⟩
      (.bytes (List.replicate 32 1))).1 = .error Err.operationError :=
  decryptBlob_fails_closed_on_tamper_or_wrong_key gcmModel
    (List.replicate 32 0) (List.replicate 32 1) (.bin []) (List.replicate 12 2)
    ((gcmModel.enc (List.replicate 32 0) (List.replicate 12 2) (jsToBytes (.bin []))).take
      ((gcmModel.enc (List.replicate 32 0) (List.replicate 12 2)
        (jsToBytes (.bin []))).length - 16))
    ((gcmModel.enc (List.replicate 32 0) (List.replicate 12 2) (jsToBytes (.bin []))).drop
      ((gcmModel.enc (List.replicate 32 0) (List.replicate 12 2)
        (jsToBytes (.bin []))).length - 16))
    (List.replicate 12 2)
    ((gcmModel.enc (List.replicate 32 0) (List.replicate 12 2) (jsToBytes (.bin []))).take
      ((gcmModel.enc (List.replicate 32 0) (List.replicate 12 2)
        (jsToBytes (.bin []))).length - 16))
    ((gcmModel.enc (List.replicate 32 0) (List.replicate 12 2) (jsToBytes (.bin []))).drop
      ((gcmModel.enc (List.replicate 32 0) (List.replicate 12 2)
        (jsToBytes (.bin []))).length - 16))
    (by decide) (by decide) rfl rfl (by decide) (by decide) (by decide)
    (Or.inr ⟨by decide, rfl, rfl, rfl⟩) (by decide)

/-! ### Claim C3 -/

/-- Fetch stub for the C3 counterexample and witness: a successful
response whose JSON body holds a `plaintext` field. -/
def fetch3 : FetchReq → JSResponse := fun _ => ⟨200, chars "not-an-envelope", some (chars "hi")⟩

/-- Counterexample to C3: `downloadAndDecrypt` returns the server's
`plaintext` field directly — it performs no cipher operation at all (the
trace holds only the fetch) and the result is identical under two
different keys, so it cannot be invoking `decryptBlob` with the supplied
key or propagating its errors. -/
theorem downloadAndDecrypt_no_decrypt_counterexample :
    downloadAndDecrypt (chars "bk1") (chars "https://api.example.com/download")
        (List.replicate 32 0) fetch3
      = (.ok (chars "hi"),
         [.fetchOp ⟨chars "https://api.example.com/download", .post,
            chars "application/json", jsonBlobKeyBody (chars "bk1")⟩])
    ∧ downloadAndDecrypt (chars "bk1") (chars "https://api.example.com/download")
        (List.replicate 32 1) fetch3
      = downloadAndDecrypt (chars "bk1") (chars "https://api.example.com/download")
        (List.replicate 32 0) fetch3
    ∧ PrimOp.decryptOp ∉ (downloadAndDecrypt (chars "bk1")
        (chars "https://api.example.com/download") (List.replicate 32 0) fetch3).2 :=
  ⟨by decide, rfl, by decide⟩

/-- In non-mock mode the download trace is exactly one POST, whatever the
response was. -/
theorem downloadAndDecrypt_trace (blobKey apiUrl : List Char) (k : List Nat)
    (ffetch : FetchReq → JSResponse)
    (hmock : containsSeq mockMarker apiUrl = false) :
    (downloadAndDecrypt blobKey apiUrl k ffetch).2
      = [.fetchOp ⟨apiUrl, .post, chars "application/json", jsonBlobKeyBody blobKey⟩] := by
  simp only [downloadAndDecrypt, hmock, Bool.false_eq_true, if_false]
  split
  · split <;> rfl
  · rfl

/-- C3 as amended: `downloadAndDecrypt` POSTs `{blobKey}` and, on a 2xx
response, returns the `plaintext` field of the JSON body directly; it
performs no key import and no cipher call (decryption is server-side) and
its behaviour is independent of the supplied key. -/
theorem downloadAndDecrypt_returns_server_plaintext
    (blobKey apiUrl : List Char) (k k' : List Nat) (ffetch : FetchReq → JSResponse)
    (p : List Char)
    (hmock : containsSeq mockMarker apiUrl = false) :
    downloadAndDecrypt blobKey apiUrl k ffetch = downloadAndDecrypt blobKey apiUrl k' ffetch
    ∧ PrimOp.decryptOp ∉ (downloadAndDecrypt blobKey apiUrl k ffetch).2
    ∧ PrimOp.importKey ∉ (downloadAndDecrypt blobKey apiUrl k ffetch).2
    ∧ (respOk (ffetch ⟨apiUrl, .post, chars "application/json", jsonBlobKeyBody blobKey⟩)
          = true →
       (ffetch ⟨apiUrl, .post, chars "application/json",
          jsonBlobKeyBody blobKey⟩).jsonPlaintext = some p →
       (downloadAndDecrypt blobKey apiUrl k ffetch).1 = .ok p) := by
  refine ⟨rfl, ?_, ?_, ?_⟩
  · rw [downloadAndDecrypt_trace blobKey apiUrl k ffetch hmock]
    simp
  · rw [downloadAndDecrypt_trace blobKey apiUrl k ffetch hmock]
    simp
  · intro hok hjson
    simp [downloadAndDecrypt, hmock, hok, hjson]

/-- Witness for C3's amended statement at a concrete endpoint and
response. -/
theorem downloadAndDecrypt_returns_server_plaintext_witness :
    downloadAndDecrypt (chars "bk1") (chars "https://api.example.com/download")
        (List.replicate 32 0) fetch3
      = downloadAndDecrypt (chars "bk1") (chars "https://api.example.com/download")
        (List.replicate 32 1) fetch3
    ∧ PrimOp.decryptOp ∉ (downloadAndDecrypt (chars "bk1")
        (chars "https://api.example.com/download") (List.replicate 32 0) fetch3).2
    ∧ PrimOp.importKey ∉ (downloadAndDecrypt (chars "bk1")
        (chars "https://api.example.com/download") (List.replicate 32 0) fetch3).2
    ∧ (respOk (fetch3 ⟨chars "https://api.example.com/download", .post,
          chars "application/json", jsonBlobKeyBody (chars "bk1")⟩) = true →
       (fetch3 ⟨chars "https://api.example.com/download", .post,
          chars "application/json", jsonBlobKeyBody (chars "bk1")⟩).jsonPlaintext
          = some (chars "hi") →
       (downloadAndDecrypt (chars "bk1") (chars "https://api.example.com/download")
          (List.replicate 32 0) fetch3).1 = .ok (chars "hi")) :=
  downloadAndDecrypt_returns_server_plaintext (chars "bk1")
    (chars "https://api.example.com/download") (List.replicate 32 0) (List.replicate 32 1)
    fetch3 (chars "hi") (by decide)

/-! ### Claim C4 -/

/-- Fetch stub for the C4 counterexample and witness: 2xx with a JSON
body holding a `blobKey` field. -/
def fetch4 : FetchReq → JSResponse :=
  fun _ => ⟨200, chars "\x7b\"blobKey\":\"abc\"\x7d", none⟩

/-- Counterexample to C4: on a 2xx response whose body is
`{"blobKey":"abc"}`, `uploadBlob` returns the whole raw body text, not
the extracted value `abc`. -/
theorem uploadBlob_no_extraction_counterexample :
    (uploadBlob (chars "payload") (chars "https://api.example.com/blob") 0 fetch4).1
      = .ok (chars "\x7b\"blobKey\":\"abc\"\x7d")
    ∧ chars "\x7b\"blobKey\":\"abc\"\x7d" ≠ chars "abc" :=
  ⟨by decide, by decide⟩

/-- C4 as amended: on a success (2xx) response `uploadBlob` returns the
raw response body text (`response.text()`) as the blob key, performing a
single POST; it does not parse the body or extract a `blobKey` field. -/
theorem uploadBlob_returns_raw_body
    (blob apiUrl : List Char) (now : Nat) (ffetch : FetchReq → JSResponse)
    (hmock : containsSeq mockMarker apiUrl = false)
    (hok : respOk (ffetch ⟨apiUrl, .post, chars "application/octet-stream", blob⟩) = true) :
    uploadBlob blob apiUrl now ffetch
      = (.ok (ffetch ⟨apiUrl, .post, chars "application/octet-stream", blob⟩).text,
         [.fetchOp ⟨apiUrl, .post, chars "application/octet-stream", blob⟩]) := by
  simp [uploadBlob, hmock, hok]

/-- Witness for C4's amended statement. -/
theorem uploadBlob_returns_raw_body_witness :
    uploadBlob (chars "payload") (chars "https://api.example.com/blob") 0 fetch4
      = (.ok (fetch4 ⟨chars "https://api.example.com/blob", .post,
            chars "application/octet-stream", chars "payload"⟩).text,
         [.fetchOp ⟨chars "https://api.example.com/blob", .post,
            chars "application/octet-stream", chars "payload"⟩]) :=
  uploadBlob_returns_raw_body (chars "payload") (chars "https://api.example.com/blob") 0
    fetch4 (by decide) (by decide)

/-! ### Claim C9 -/

/-- Fetch stub for C9: HTTP 500 with one error body. -/
def fetch9a : FetchReq → JSResponse := fun _ => ⟨500, chars "backend error body A", none⟩

/-- Fetch stub for C9: HTTP 500 with a different error body. -/
def fetch9b : FetchReq → JSResponse := fun _ => ⟨500, chars "backend error body B", none⟩

/-- Counterexample to C9: two 500 responses with different bodies produce
the identical error `Upload failed: 500`, so the thrown error carries the
status code but cannot carry the response body. -/
theorem uploadBlob_error_lacks_body_counterexample :
    (uploadBlob (chars "payload") (chars "https://api.example.com/blob") 0 fetch9a).1
      = .error (.jsError (chars "Upload failed: 500"))
    ∧ (uploadBlob (chars "payload") (chars "https://api.example.com/blob") 0 fetch9b).1
      = .error (.jsError (chars "Upload failed: 500"))
    ∧ (fetch9a ⟨chars "https://api.example.com/blob", .post,
        chars "application/octet-stream", chars "payload"⟩).text
      ≠ (fetch9b ⟨chars "https://api.example.com/blob", .post,
        chars "application/octet-stream", chars "payload"⟩).text :=
  ⟨by decide, by decide, by decide⟩

/-- C9 as amended: on a non-2xx response `uploadBlob` throws
`Upload failed: <status>` — carrying the status code but not the body —
and its trace holds exactly one POST: the request is never retried
internally. -/
theorem uploadBlob_failure_status_no_retry
    (blob apiUrl : List Char) (now : Nat) (ffetch : FetchReq → JSResponse)
    (hmock : containsSeq mockMarker apiUrl = false)
    (hbad : respOk (ffetch ⟨apiUrl, .post, chars "application/octet-stream", blob⟩) = false) :
    uploadBlob blob apiUrl now ffetch
      = (.error (.jsError (chars "Upload failed: "
          ++ natToString (ffetch ⟨apiUrl, .post,
              chars "application/octet-stream", blob⟩).status)),
         [.fetchOp ⟨apiUrl, .post, chars "application/octet-stream", blob⟩]) := by
  simp [uploadBlob, hmock, hbad]

/-- Witness for C9's amended statement. -/
theorem uploadBlob_failure_status_no_retry_witness :
    uploadBlob (chars "payload") (chars "https://api.example.com/blob") 0 fetch9a
      = (.error (.jsError (chars "Upload failed: "
          ++ natToString (fetch9a ⟨chars "https://api.example.com/blob", .post,
              chars "application/octet-stream", chars "payload"⟩).status)),
         [.fetchOp ⟨chars "https://api.example.com/blob", .post,
            chars "application/octet-stream", chars "payload"⟩]) :=
  uploadBlob_failure_status_no_retry (chars "payload") (chars "https://api.example.com/blob")
    0 fetch9a (by decide) (by decide)

/-! ### Claim C6 -/

/-- Key material (not a CryptoKey handle) whose raw bytes do not have
length 32: raw bytes of the wrong length, or a base64 string in the
canonical format both implementations accept (the enhanced
implementation's regex; includes unpadded strings, excludes whitespace)
decoding to the wrong length. -/
def KeyBad : KeyMaterial → Prop
  | .handle _ => False
  | .b64 s => b64FormatOK s = true ∧ ∃ raw, b64DecodeChars s = some raw ∧ raw.length ≠ 32
  | .bytes b => b.length ≠ 32

/-- A present, non-empty field is not JS-falsy. -/
theorem falsyStr_some_of_ne (s : List Char) (h : s ≠ []) : falsyStr (some s) = false := by
  cases s with
  | nil => exact absurd rfl h
  | cons a as => rfl

/-- Counterexample to C6: the empty string decodes to 0 bytes (≠ 32), and
the basic implementation duly throws its key-length error, but the
enhanced `encryptBlob` rejects it with MISSING_KEY — the empty string is
falsy in JS, so `validateKeyMaterial`'s first check `!keyMaterial` fires —
not with INVALID_KEY_LENGTH. -/
theorem encryptBlobV3_emptyKey_counterexample :
    b64DecodeChars ([] : List Char) = some ([] : List Nat)
    ∧ ([] : List Nat).length ≠ 32
    ∧ (encryptBlobV3 gcmModel (.str (chars "x")) (.b64 []) (List.replicate 12 0)).1
      = .error (.cryptoError (chars "MISSING_KEY"))
    ∧ Err.cryptoError (chars "MISSING_KEY") ≠ Err.cryptoError (chars "INVALID_KEY_LENGTH")
    ∧ (encryptBlob gcmModel (.str (chars "x")) (.b64 []) (List.replicate 12 0)).1
      = .error (.jsError keyLenMsg) :=
  ⟨by decide, by decide, by decide, by decide, by decide⟩

/-- C6 as amended: for key material whose decoded raw length is not 32
bytes, both `encryptBlob`s and both `decryptBlob`s fail before any
primitive operation at all — no key import, no CSPRNG draw, no cipher
call.  The basic implementation throws its key-length Error in every such
case, including the empty-string key; the enhanced implementation fails
with INVALID_KEY_LENGTH, except for the empty-string key, which its
falsiness check rejects as MISSING_KEY. -/
theorem keyLength_validated_before_crypto
    (aead : AEAD) (km : KeyMaterial) (hbad : KeyBad km)
    (d : JSData) (pb : List Nat) (hpt : validatePlaintext d = .ok pb)
    (draw : List Nat) (env : Envelope)
    (iv0 ct0 tg0 : List Char) (hiv0 : iv0 ≠ []) (hct0 : ct0 ≠ []) (htg0 : tg0 ≠ []) :
    encryptBlob aead d km draw = (.error (.jsError keyLenMsg), [])
    ∧ decryptBlob aead env km = (.error (.jsError keyLenMsg), [])
    ∧ (km ≠ .b64 [] →
        encryptBlobV3 aead d km draw
          = (.error (.cryptoError (chars "INVALID_KEY_LENGTH")), [])
        ∧ decryptBlobV3 aead ⟨some iv0, some ct0, some tg0, none⟩ km
          = (.error (.cryptoError (chars "INVALID_KEY_LENGTH")), []))
    ∧ (km = .b64 [] →
        encryptBlobV3 aead d km draw = (.error (.cryptoError (chars "MISSING_KEY")), [])
        ∧ decryptBlobV3 aead ⟨some iv0, some ct0, some tg0, none⟩ km
          = (.error (.cryptoError (chars "MISSING_KEY")), [])) := by
  have hf1 := falsyStr_some_of_ne iv0 hiv0
  have hf2 := falsyStr_some_of_ne ct0 hct0
  have hf3 := falsyStr_some_of_ne tg0 htg0
  cases km with
  | handle raw => exact hbad.elim
  | bytes b =>
    have hlen : b.length ≠ 32 := hbad
    refine ⟨?_, ?_, ?_, ?_⟩
    · simp [encryptBlob, getKey, hlen]
    · simp [decryptBlob, getKey, hlen]
    · intro _
      constructor
      · simp [encryptBlobV3, hpt, getKeyV3, validateKeyMaterial, hlen]
      · simp [decryptBlobV3, hf1, hf2, hf3, metaAlgBad, getKeyV3, validateKeyMaterial, hlen]
    · intro h
      simp at h
  | b64 s =>
    obtain ⟨hfmt, raw, hdec, hlen⟩ := hbad
    refine ⟨?_, ?_, ?_, ?_⟩
    · simp [encryptBlob, getKey, hdec, hlen]
    · simp [decryptBlob, getKey, hdec, hlen]
    · intro hne
      have hs : s ≠ [] := by
        intro h0
        exact hne (by rw [h0])
      have hslen : ¬(s.length = 0) := fun h0 => hs (List.length_eq_zero.mp h0)
      have hfb : fromBase64V3 s = .ok raw := by simp [fromBase64V3, hfmt, hdec]
      constructor
      · simp [encryptBlobV3, hpt, getKeyV3, validateKeyMaterial, hslen, hfb, hlen]
      · simp [decryptBlobV3, hf1, hf2, hf3, metaAlgBad, getKeyV3, validateKeyMaterial,
          hslen, hfb, hlen]
    · intro h
      have hs : s = [] := by
        simpa using h
      subst hs
      constructor
      · simp [encryptBlobV3, hpt, getKeyV3, validateKeyMaterial]
      · simp [decryptBlobV3, hf1, hf2, hf3, metaAlgBad, getKeyV3, validateKeyMaterial]

/-- Witness for C6's amended statement: the unpadded base64 key "QQ",
which forgiving atob decodes to the single byte 65. -/
theorem keyLength_validated_before_crypto_witness :
    encryptBlob gcmModel (.str (chars "x")) (.b64 (chars "QQ")) (List.replicate 12 0)
      = (.error (.jsError keyLenMsg), [])
    ∧ decryptBlob gcmModel ⟨chars "AA==", chars "AA==", chars "AA=="⟩ (.b64 (chars "QQ"))
      = (.error (.jsError keyLenMsg), [])
    ∧ ((.b64 (chars "QQ") : KeyMaterial) ≠ .b64 [] →
        encryptBlobV3 gcmModel (.str (chars "x")) (.b64 (chars "QQ")) (List.replicate 12 0)
          = (.error (.cryptoError (chars "INVALID_KEY_LENGTH")), [])
        ∧ decryptBlobV3 gcmModel ⟨some (chars "AA=="), some (chars "AA=="),
            some (chars "AA=="), none⟩ (.b64 (chars "QQ"))
          = (.error (.cryptoError (chars "INVALID_KEY_LENGTH")), []))
    ∧ ((.b64 (chars "QQ") : KeyMaterial) = .b64 [] →
        encryptBlobV3 gcmModel (.str (chars "x")) (.b64 (chars "QQ")) (List.replicate 12 0)
          = (.error (.cryptoError (chars "MISSING_KEY")), [])
        ∧ decryptBlobV3 gcmModel ⟨some (chars "AA=="), some (chars "AA=="),
            some (chars "AA=="), none⟩ (.b64 (chars "QQ"))
          = (.error (.cryptoError (chars "MISSING_KEY")), [])) :=
  keyLength_validated_before_crypto gcmModel (.b64 (chars "QQ"))
    ⟨by decide, [65], by decide, by decide⟩
    (.str (chars "x")) [120] (by decide) (List.replicate 12 0)
    ⟨chars "AA==", chars "AA==", chars "AA=="⟩
    (chars "AA==") (chars "AA==") (chars "AA==") (by decide) (by decide) (by decide)

/-! ### Claim C7 -/

/-- The enhanced implementation's error codes for a structurally invalid
envelope (the spec's InvalidEnvelope family): missing/empty fields,
fields failing the base64 format regex, fields on which atob itself
throws, and decoded iv/tag of the wrong length. -/
def invalidEnvelopeCodes : List (List Char) :=
  [chars "INCOMPLETE_CIPHER", chars "INVALID_BASE64", chars "DECODING_ERROR",
   chars "INVALID_IV", chars "INVALID_TAG"]

/-- A structurally malformed envelope in the sense of the claim: a
missing or empty field, an iv field that does not base64-decode to
exactly 12 bytes, or a tag field that does not base64-decode to exactly
16 bytes. -/
def EnvMalformed (c : CipherObj) : Prop :=
  (falsyStr c.iv = true ∨ falsyStr c.ciphertext = true ∨ falsyStr c.tag = true)
  ∨ (∀ ivB, b64DecodeChars (c.iv.getD []) = some ivB → ivB.length ≠ 12)
  ∨ (∀ tgB, b64DecodeChars (c.tag.getD []) = some tgB → tgB.length ≠ 16)

/-- Counterexample to C7: the basic `decryptBlob` performs no structural
validation — on an envelope whose iv decodes to 11 bytes it imports the
key and invokes the cipher (the trace holds the cipher call), surfacing
the cipher's OperationError, not an InvalidEnvelope failure raised before
the cipher. -/
theorem decryptBlob_no_validation_counterexample :
    decryptBlob gcmModel
      ⟨b64EncodeBytes (List.replicate 11 0), b64EncodeBytes ([] : List Nat),
       b64EncodeBytes (List.replicate 16 1)⟩ (.bytes (List.replicate 32 0))
    = (.error Err.operationError, [PrimOp.importKey, PrimOp.decryptOp]) := by decide

/-- C7 as amended: the enhanced `decryptBlob` fails on a malformed
envelope with one of the InvalidEnvelope-family codes before the cipher
is ever invoked (no cipher call in the trace); the basic `decryptBlob`
performs no such validation. -/
theorem decryptBlobV3_validates_envelope
    (aead : AEAD) (c : CipherObj) (k : List Nat) (hk : k.length = 32)
    (hmeta : c.metadata = none) (hmal : EnvMalformed c) :
    ∃ code, code ∈ invalidEnvelopeCodes
      ∧ (decryptBlobV3 aead c (.bytes k)).1 = .error (.cryptoError code)
      ∧ PrimOp.decryptOp ∉ (decryptBlobV3 aead c (.bytes k)).2 := by
  by_cases hf : (falsyStr c.iv || falsyStr c.ciphertext || falsyStr c.tag) = true
  · exact ⟨chars "INCOMPLETE_CIPHER", by simp [invalidEnvelopeCodes],
      by simp [decryptBlobV3, hf], by simp [decryptBlobV3, hf]⟩
  · have hf' : (falsyStr c.iv || falsyStr c.ciphertext || falsyStr c.tag) = false :=
      Bool.eq_false_iff.mpr hf
    have hmb : metaAlgBad c.metadata = false := by rw [hmeta]; rfl
    have hgk : getKeyV3 (.bytes k) = (.ok k, [.importKey]) := by
      simp [getKeyV3, validateKeyMaterial, hk]
    rcases heq1 : fromBase64V3 (c.iv.getD []) with e | ivB
    · obtain he | he := fromBase64V3_error_code _ e heq1
      · exact ⟨chars "INVALID_BASE64", by simp [invalidEnvelopeCodes],
          by simp [decryptBlobV3, hf', hmb, hgk, heq1, he],
          by simp [decryptBlobV3, hf', hmb, hgk, heq1]⟩
      · exact ⟨chars "DECODING_ERROR", by simp [invalidEnvelopeCodes],
          by simp [decryptBlobV3, hf', hmb, hgk, heq1, he],
          by simp [decryptBlobV3, hf', hmb, hgk, heq1]⟩
    · rcases heq2 : fromBase64V3 (c.ciphertext.getD []) with e | ctB
      · obtain he | he := fromBase64V3_error_code _ e heq2
        · exact ⟨chars "INVALID_BASE64", by simp [invalidEnvelopeCodes],
            by simp [decryptBlobV3, hf', hmb, hgk, heq1, heq2, he],
            by simp [decryptBlobV3, hf', hmb, hgk, heq1, heq2]⟩
        · exact ⟨chars "DECODING_ERROR", by simp [invalidEnvelopeCodes],
            by simp [decryptBlobV3, hf', hmb, hgk, heq1, heq2, he],
            by simp [decryptBlobV3, hf', hmb, hgk, heq1, heq2]⟩
      · rcases heq3 : fromBase64V3 (c.tag.getD []) with e | tgB
        · obtain he | he := fromBase64V3_error_code _ e heq3
          · exact ⟨chars "INVALID_BASE64", by simp [invalidEnvelopeCodes],
              by simp [decryptBlobV3, hf', hmb, hgk, heq1, heq2, heq3, he],
              by simp [decryptBlobV3, hf', hmb, hgk, heq1, heq2, heq3]⟩
          · exact ⟨chars "DECODING_ERROR", by simp [invalidEnvelopeCodes],
              by simp [decryptBlobV3, hf', hmb, hgk, heq1, heq2, heq3, he],
              by simp [decryptBlobV3, hf', hmb, hgk, heq1, heq2, heq3]⟩
        · by_cases hivlen : ivB.length = 12
          · have htg : tgB.length ≠ 16 := by
              obtain ⟨⟨f1, f2⟩, f3⟩ : (falsyStr c.iv = false ∧ falsyStr c.ciphertext = false)
                  ∧ falsyStr c.tag = false := by
                simpa [Bool.or_eq_false_iff] using hf'
              rcases hmal with (h | h | h) | hiv | htg
              · rw [f1] at h; exact absurd h (by decide)
              · rw [f2] at h; exact absurd h (by decide)
              · rw [f3] at h; exact absurd h (by decide)
              · exact absurd hivlen (hiv ivB (fromBase64V3_ok _ ivB heq1))
              · exact htg tgB (fromBase64V3_ok _ tgB heq3)
            exact ⟨chars "INVALID_TAG", by simp [invalidEnvelopeCodes],
              by simp [decryptBlobV3, hf', hmb, hgk, heq1, heq2, heq3, hivlen, htg],
              by simp [decryptBlobV3, hf', hmb, hgk, heq1, heq2, heq3, hivlen, htg]⟩
          · exact ⟨chars "INVALID_IV", by simp [invalidEnvelopeCodes],
              by simp [decryptBlobV3, hf', hmb, hgk, heq1, heq2, heq3, hivlen],
              by simp [decryptBlobV3, hf', hmb, hgk, heq1, heq2, heq3, hivlen]⟩

/-- Witness for C7's amended statement: an envelope with a missing iv
field. -/
theorem decryptBlobV3_validates_envelope_witness :
    ∃ code, code ∈ invalidEnvelopeCodes
      ∧ (decryptBlobV3 gcmModel ⟨none, some (chars "AA=="), some (chars "AA=="), none⟩
          (.bytes (List.replicate 32 0))).1 = .error (.cryptoError code)
      ∧ PrimOp.decryptOp ∉ (decryptBlobV3 gcmModel
          ⟨none, some (chars "AA=="), some (chars "AA=="), none⟩
          (.bytes (List.replicate 32 0))).2 :=
  decryptBlobV3_validates_envelope gcmModel
    ⟨none, some (chars "AA=="), some (chars "AA=="), none⟩ (List.replicate 32 0)
    (by decide) rfl (Or.inl (Or.inl rfl))

/-! ### Claim C8 -/

/-- Counterexample to C8: the basic `encryptBlob` called with `null` data
does not fail — `new Uint8Array(null)` is empty, so it silently encrypts
the empty payload and returns an envelope whose ciphertext field is the
empty string. -/
theorem encryptBlob_encrypts_null_counterexample :
    (encryptBlob gcmModel .nullv (.bytes (List.replicate 32 0)) (List.replicate 12 0)).1
      = .ok ⟨b64EncodeBytes (List.replicate 12 0), b64EncodeBytes ([] : List Nat),
             b64EncodeBytes (gcmTag (List.replicate 32 0) (List.replicate 12 0) [])⟩
    ∧ b64EncodeBytes ([] : List Nat) = [] :=
  ⟨by decide, by decide⟩

/-- C8 as amended: the enhanced `encryptBlob` rejects null/undefined data
with INVALID_DATA and any other non-string non-buffer data with
INVALID_DATA_TYPE, before any key import, CSPRNG draw or cipher call (the
trace is empty); the basic `encryptBlob` performs no such validation and
silently encrypts an empty (or zero-filled) payload instead. -/
theorem encryptBlobV3_rejects_invalid_input
    (aead : AEAD) (km : KeyMaterial) (draw : List Nat) (d : JSData)
    (hs : ∀ s, d ≠ .str s) (hb : ∀ b, d ≠ .bin b) :
    ∃ code, (code = chars "INVALID_DATA" ∨ code = chars "INVALID_DATA_TYPE")
      ∧ encryptBlobV3 aead d km draw = (.error (.cryptoError code), []) := by
  cases d with
  | str s => exact absurd rfl (hs s)
  | bin b => exact absurd rfl (hb b)
  | nullv => exact ⟨chars "INVALID_DATA", Or.inl rfl, by simp [encryptBlobV3, validatePlaintext]⟩
  | undef => exact ⟨chars "INVALID_DATA", Or.inl rfl, by simp [encryptBlobV3, validatePlaintext]⟩
  | num n =>
    exact ⟨chars "INVALID_DATA_TYPE", Or.inr rfl, by simp [encryptBlobV3, validatePlaintext]⟩

/-- Witness for C8's amended statement: `null` data. -/
theorem encryptBlobV3_rejects_invalid_input_witness :
    ∃ code, (code = chars "INVALID_DATA" ∨ code = chars "INVALID_DATA_TYPE")
      ∧ encryptBlobV3 gcmModel .nullv (.bytes (List.replicate 32 0)) (List.replicate 12 0)
        = (.error (.cryptoError code), []) :=
  encryptBlobV3_rejects_invalid_input gcmModel (.bytes (List.replicate 32 0))
    (List.replicate 12 0) .nullv (fun s h => JSData.noConfusion h)
    (fun b h => JSData.noConfusion h)

end Solace
